import Mathlib

/-!
Shallow embedding of `src/utils/generatePdf.py` (Tourtastic PDF generation
utility) and proofs about it.

The Python file defines two functions:

* `ensure_dir(file_path)` — computes `os.path.dirname(file_path)` and, when
  `os.path.exists` reports that directory absent, calls `os.makedirs` on it.
* `generate_simple_booking_pdf(booking_details, output_path)` — runs
  `ensure_dir`, builds an FPDF page out of a fixed sequence of `cell` and `ln`
  calls whose texts interpolate `booking_details.get(key, "N/A")`, and then
  tries `pdf.output(output_path, "F")`, printing a success message and
  returning `output_path`, or printing an error message and re-raising on
  failure.

Modelling choices, each mirroring the source:

* A booking record is an association list `List (String × String)`; Python
  dict lookup `d.get(k, default)` is first-match lookup with a default.  The
  values are the display strings the f-string interpolation produces.
* The filesystem is a state: a list of existing directories and an
  association list from file path to written document.  `os.path.dirname` is
  transcribed from CPython posixpath. `os.path.exists("")` is `False` in
  CPython, and `os.makedirs("")` raises `FileNotFoundError`; both facts are
  built into the model.  `os.makedirs(d)` for nonempty `d` records `d` and
  its ancestor prefixes as existing.
* The FPDF page is the list of `cell`/`ln` calls issued, in order; the
  extracted text of a page is its cell texts joined by line breaks.
* The outcome of the opaque `pdf.output` call is a parameter
  `writeFailure : Option String`: `none` models a successful write, `some e`
  models the library raising an exception whose rendered message is `e`.
-/

/-- One drawing operation issued to the FPDF object: a `cell` call with its
width, height, text, line-advance flag and alignment, or an `ln` spacer. -/
inductive PdfItem where
  | cell (w h : Nat) (txt : String) (ln : Nat) (align : String)
  | lnbreak (h : Nat)
deriving DecidableEq, Repr

/-- Filesystem state: the set of existing directories and the mapping from
path to the document written there. -/
structure FS where
  dirs : List String
  files : List (String × List PdfItem)
deriving DecidableEq, Repr

/-- Errors the Python code can raise: `FileNotFoundError` out of
`os.makedirs` (carrying the offending directory), or the exception re-raised
from the `pdf.output` failure branch (carrying its rendered message). -/
inductive PyErr where
  | fileNotFound (dir : String)
  | writeErr (msg : String)
deriving DecidableEq, Repr

/-- Successful outcome of the generator: the filesystem after the write and
the returned path. -/
structure PdfOk where
  fs : FS
  ret : String
deriving DecidableEq, Repr

/-- Python `d.get(key)` on a dict modelled as an association list:
first pair whose key matches. -/
def lookup (d : List (String × String)) (key : String) : Option String :=
  match d.find? (fun p => p.1 == key) with
  | some p => some p.2
  | none => none

/-- Python `d.get(key, default)`. -/
def dictGet (d : List (String × String)) (key default : String) : String :=
  (lookup d key).getD default

/-- CPython `posixpath.dirname`: take everything up to and including the last
slash, then strip trailing slashes unless the head is all slashes. -/
def dirname (p : String) : String :=
  let cs := p.data
  let i := cs.length - (cs.reverse.takeWhile (fun c => c ≠ '/')).length
  let head := cs.take i
  if head ≠ [] ∧ ¬ head.all (fun c => c = '/') then
    ⟨(head.reverse.dropWhile (fun c => c = '/')).reverse⟩
  else
    ⟨head⟩

/-- `os.path.exists` restricted to the directory set of the model state; the
empty string never exists (CPython returns `False` for it). -/
def pathExists (fs : FS) (p : String) : Bool :=
  if p = "" then false else fs.dirs.contains p

/-- The proper ancestor prefixes of a slash-separated path, shortest first:
for `"a/b/c"` these are `"a"` and `"a/b"`. -/
def ancestors (d : String) : List String :=
  let comps := d.splitOn "/"
  (List.range (comps.length - 1)).map (fun i => String.intercalate "/" (comps.take (i + 1)))

/-- `os.makedirs(d)`: raises `FileNotFoundError` on the empty string (as
CPython does), otherwise records `d` and its missing ancestors as existing. -/
def makedirs (fs : FS) (d : String) : Except PyErr FS :=
  if d = "" then
    .error (.fileNotFound d)
  else
    .ok { fs with dirs := d :: ancestors d ++ fs.dirs }

/-- `ensure_dir` from the source: compute the dirname, and if it does not
exist, create it. -/
def ensure_dir (fs : FS) (file_path : String) : Except PyErr FS :=
  let directory := dirname file_path
  if pathExists fs directory then .ok fs else makedirs fs directory

/-- The sequence of drawing operations `generate_simple_booking_pdf` issues:
centered title cell, spacer, the eight field cells interpolating
`booking_details.get(key, "N/A")`, spacer, thank-you cell.  Transcribed
line by line from the source. -/
def renderDoc (booking_details : List (String × String)) : List PdfItem :=
  [ .cell 200 10 "Tourtastic - Booking Confirmation" 1 "C",
    .lnbreak 10,
    .cell 200 10 ("Booking ID: " ++ dictGet booking_details "bookingId" "N/A") 1 "",
    .cell 200 10 ("Customer: " ++ dictGet booking_details "customerName" "N/A") 1 "",
    .cell 200 10 ("Email: " ++ dictGet booking_details "customerEmail" "N/A") 1 "",
    .cell 200 10 ("Type: " ++ dictGet booking_details "type" "N/A") 1 "",
    .cell 200 10 ("Destination: " ++ dictGet booking_details "destination" "N/A") 1 "",
    .cell 200 10 ("Date: " ++ dictGet booking_details "bookingDate" "N/A") 1 "",
    .cell 200 10 ("Amount: $" ++ dictGet booking_details "amount" "N/A") 1 "",
    .cell 200 10 ("Status: " ++ dictGet booking_details "status" "N/A") 1 "",
    .lnbreak 10,
    .cell 200 10 "Thank you for booking with Tourtastic!" 1 "" ]

/-- The texts of the `cell` calls of a page, in order. -/
def cellTexts : List PdfItem → List String
  | [] => []
  | .cell _ _ t _ _ :: rest => t :: cellTexts rest
  | .lnbreak _ :: rest => cellTexts rest

/-- Join a list of lines with line breaks. -/
def joinLines : List String → String
  | [] => ""
  | t :: rest => t ++ "\n" ++ joinLines rest

/-- The extracted text content of a page: its cell texts joined by line
breaks. -/
def extractedText (doc : List PdfItem) : String :=
  joinLines (cellTexts doc)

/-- Record a file at a path, overwriting any previous entry for that path. -/
def setFile (files : List (String × List PdfItem)) (p : String)
    (doc : List PdfItem) : List (String × List PdfItem) :=
  (p, doc) :: files.filter (fun q => q.1 != p)

/-- Look up the document stored at a path. -/
def lookupFile (files : List (String × List PdfItem)) (p : String) :
    Option (List PdfItem) :=
  match files.find? (fun q => q.1 == p) with
  | some q => some q.2
  | none => none

/-- `generate_simple_booking_pdf` from the source, as a state transformer:
run `ensure_dir` (propagating its exception), render the page, then attempt
the write.  `writeFailure` is the outcome of the opaque `pdf.output` call.
The first component of the result is the list of printed log lines. -/
def generate_simple_booking_pdf (writeFailure : Option String) (fs : FS)
    (booking_details : List (String × String)) (output_path : String) :
    List String × Except PyErr PdfOk :=
  match ensure_dir fs output_path with
  | .error e => ([], .error e)
  | .ok fs1 =>
    let doc := renderDoc booking_details
    match writeFailure with
    | none =>
      (["PDF generated successfully at " ++ output_path],
       .ok { fs := { dirs := fs1.dirs, files := setFile fs1.files output_path doc },
             ret := output_path })
    | some e => (["Error generating PDF: " ++ e], .error (.writeErr e))

/-- The rendered page as section 4.1 step 3 of the design contract describes
it: a centered title line, a blank spacer, eight left-aligned rows in fixed
order (Booking ID, Customer, Email, Type, Destination, Date, Amount prefixed
with a currency symbol, Status) each formatted as label, colon, space,
value, then a trailing spacer and a closing thank-you line.  Stated from the
wording of the spec, to be compared with `renderDoc`. -/
def specRenderedPage (bid cust email ty dest date amt st : String) :
    List PdfItem :=
  [ .cell 200 10 "Tourtastic - Booking Confirmation" 1 "C",
    .lnbreak 10,
    .cell 200 10 ("Booking ID: " ++ bid) 1 "",
    .cell 200 10 ("Customer: " ++ cust) 1 "",
    .cell 200 10 ("Email: " ++ email) 1 "",
    .cell 200 10 ("Type: " ++ ty) 1 "",
    .cell 200 10 ("Destination: " ++ dest) 1 "",
    .cell 200 10 ("Date: " ++ date) 1 "",
    .cell 200 10 ("Amount: $" ++ amt) 1 "",
    .cell 200 10 ("Status: " ++ st) 1 "",
    .lnbreak 10,
    .cell 200 10 "Thank you for booking with Tourtastic!" 1 "" ]

/-- The eight recognized record keys paired with the exact row prefix
(label, colon, space, and for the amount also the currency symbol) the code
prints before the looked-up value. -/
def fieldSpecs : List (String × String) :=
  [ ("bookingId", "Booking ID: "),
    ("customerName", "Customer: "),
    ("customerEmail", "Email: "),
    ("type", "Type: "),
    ("destination", "Destination: "),
    ("bookingDate", "Date: "),
    ("amount", "Amount: $"),
    ("status", "Status: ") ]

/-- The fully populated example record of spec section 8. -/
def janeRecord : List (String × String) :=
  [ ("bookingId", "BK123"),
    ("customerName", "Jane Doe"),
    ("customerEmail", "jane@example.com"),
    ("type", "flight"),
    ("destination", "Paris"),
    ("bookingDate", "2025-01-01"),
    ("amount", "250"),
    ("status", "confirmed") ]

/-! ## Helper lemmas -/

lemma dictGet_of_none (b : List (String × String)) (k d : String)
    (h : lookup b k = none) : dictGet b k d = d := by
  simp [dictGet, h]

lemma dictGet_of_some (b : List (String × String)) (k d v : String)
    (h : lookup b k = some v) : dictGet b k d = v := by
  simp [dictGet, h]

lemma infix_of_mem_joinLines (t : String) (L : List String) (h : t ∈ L) :
    ∃ u v : List Char, u ++ t.data ++ v = (joinLines L).data := by
  induction L with
  | nil => cases h
  | cons a rest ih =>
    rcases List.mem_cons.mp h with rfl | hm
    · exact ⟨[], ("\n" ++ joinLines rest).data, by
        simp [joinLines, String.data_append]⟩
    · obtain ⟨u, v, huv⟩ := ih hm
      exact ⟨(a ++ "\n").data ++ u, v, by
        simp [joinLines, String.data_append, ← huv]⟩

lemma infix_of_mem_cellTexts (doc : List PdfItem) (t : String)
    (h : t ∈ cellTexts doc) :
    ∃ u v : List Char, u ++ t.data ++ v = (extractedText doc).data :=
  infix_of_mem_joinLines t (cellTexts doc) h

lemma ensure_dir_of_exists (fs : FS) (p : String)
    (hpe : pathExists fs (dirname p) = true) : ensure_dir fs p = .ok fs := by
  simp [ensure_dir, hpe]

lemma ensure_dir_of_absent (fs : FS) (p : String)
    (hpe : ¬ pathExists fs (dirname p) = true) (hd : dirname p ≠ "") :
    ensure_dir fs p
      = .ok ⟨dirname p :: (ancestors (dirname p) ++ fs.dirs), fs.files⟩ := by
  simp [ensure_dir, hpe, makedirs, hd]

lemma ensure_dir_ok_spec (fs : FS) (p : String) (fs1 : FS)
    (h : ensure_dir fs p = .ok fs1) :
    fs1.files = fs.files
    ∧ (fs1 = fs ∨ fs1.dirs = dirname p :: (ancestors (dirname p) ++ fs.dirs)) := by
  by_cases hpe : pathExists fs (dirname p) = true
  · rw [ensure_dir_of_exists fs p hpe] at h
    injection h with h
    subst h
    exact ⟨rfl, Or.inl rfl⟩
  · by_cases hd : dirname p = ""
    · have he : ensure_dir fs p = .error (.fileNotFound (dirname p)) := by
        simp [ensure_dir, hpe, makedirs, hd, pathExists]
      rw [he] at h
      exact Except.noConfusion h
    · rw [ensure_dir_of_absent fs p hpe hd] at h
      injection h with h
      subst h
      exact ⟨rfl, Or.inr rfl⟩

lemma ensure_dir_ok_of_ne (fs : FS) (p : String) (h : dirname p ≠ "") :
    ∃ fs1, ensure_dir fs p = .ok fs1 ∧ fs1.files = fs.files
      ∧ dirname p ∈ fs1.dirs := by
  by_cases hpe : pathExists fs (dirname p) = true
  · refine ⟨fs, ensure_dir_of_exists fs p hpe, rfl, ?_⟩
    simp only [pathExists, if_neg h] at hpe
    simpa using hpe
  · exact ⟨⟨dirname p :: (ancestors (dirname p) ++ fs.dirs), fs.files⟩,
      ensure_dir_of_absent fs p hpe h, rfl, by simp⟩

lemma find?_filter_ne (files : List (String × List PdfItem)) (p q : String)
    (h : q ≠ p) :
    (files.filter (fun r => r.1 != p)).find? (fun r => r.1 == q)
      = files.find? (fun r => r.1 == q) := by
  induction files with
  | nil => rfl
  | cons a rest ih =>
    by_cases hap : a.1 = p
    · have h1 : (a.1 != p) = false := by simp [bne, hap]
      have h2 : (a.1 == q) = false := by
        rw [beq_eq_false_iff_ne, hap]
        exact fun e => h e.symm
      rw [List.filter_cons, h1, if_neg (by simp), ih,
        List.find?_cons_of_neg rest (by simp [h2])]
    · have h1 : (a.1 != p) = true := by simp [bne, hap]
      by_cases haq : a.1 = q
      · rw [List.filter_cons, h1, if_pos rfl,
          List.find?_cons_of_pos _ (by simp [haq]),
          List.find?_cons_of_pos rest (by simp [haq])]
      · have h2 : (a.1 == q) = false := by rw [beq_eq_false_iff_ne]; exact haq
        rw [List.filter_cons, h1, if_pos rfl,
          List.find?_cons_of_neg _ (by simp [h2]), ih,
          List.find?_cons_of_neg rest (by simp [h2])]

lemma lookupFile_setFile_same (files : List (String × List PdfItem))
    (p : String) (doc : List PdfItem) :
    lookupFile (setFile files p doc) p = some doc := by
  simp [lookupFile, setFile, List.find?]

lemma lookupFile_setFile_ne (files : List (String × List PdfItem))
    (p q : String) (doc : List PdfItem) (h : q ≠ p) :
    lookupFile (setFile files p doc) q = lookupFile files q := by
  have hpq : (((p, doc) : String × List PdfItem).1 == q) = false := by
    rw [beq_eq_false_iff_ne]
    exact fun e => h e.symm
  unfold lookupFile setFile
  rw [List.find?_cons_of_neg _ (by simp [hpq]), find?_filter_ne files p q h]

/-! ## Claim theorems -/

/-- Claim C1: for every record, the rendered page is, in this exact order,
a centered title line, a blank spacer, eight left-aligned rows in fixed
order (Booking ID, Customer, Email, Type, Destination, Date, Amount
prefixed with the currency symbol, Status) each formatted as label, colon,
space, value-or-N/A; followed by a trailing spacer and a closing thank-you
line; and whenever a recognized key is present, the extracted text
contains its value preceded by its exact label, so a record holding all
eight keys has all eight labeled values in its extracted text. -/
theorem c1_rendered_page (b : List (String × String))
    (v1 v2 v3 v4 v5 v6 v7 v8 : String) :
    renderDoc b
      = specRenderedPage (dictGet b "bookingId" "N/A")
          (dictGet b "customerName" "N/A") (dictGet b "customerEmail" "N/A")
          (dictGet b "type" "N/A") (dictGet b "destination" "N/A")
          (dictGet b "bookingDate" "N/A") (dictGet b "amount" "N/A")
          (dictGet b "status" "N/A")
    ∧ (lookup b "bookingId" = some v1 →
        ∃ u v : List Char, u ++ ("Booking ID: " ++ v1).data ++ v = (extractedText (renderDoc b)).data)
    ∧ (lookup b "customerName" = some v2 →
        ∃ u v : List Char, u ++ ("Customer: " ++ v2).data ++ v = (extractedText (renderDoc b)).data)
    ∧ (lookup b "customerEmail" = some v3 →
        ∃ u v : List Char, u ++ ("Email: " ++ v3).data ++ v = (extractedText (renderDoc b)).data)
    ∧ (lookup b "type" = some v4 →
        ∃ u v : List Char, u ++ ("Type: " ++ v4).data ++ v = (extractedText (renderDoc b)).data)
    ∧ (lookup b "destination" = some v5 →
        ∃ u v : List Char, u ++ ("Destination: " ++ v5).data ++ v = (extractedText (renderDoc b)).data)
    ∧ (lookup b "bookingDate" = some v6 →
        ∃ u v : List Char, u ++ ("Date: " ++ v6).data ++ v = (extractedText (renderDoc b)).data)
    ∧ (lookup b "amount" = some v7 →
        ∃ u v : List Char, u ++ ("Amount: $" ++ v7).data ++ v = (extractedText (renderDoc b)).data)
    ∧ (lookup b "status" = some v8 →
        ∃ u v : List Char, u ++ ("Status: " ++ v8).data ++ v = (extractedText (renderDoc b)).data) := by
  refine ⟨rfl, ?_, ?_, ?_, ?_, ?_, ?_, ?_, ?_⟩
  all_goals
    intro h
    exact infix_of_mem_cellTexts _ _ (by simp [renderDoc, cellTexts, dictGet, h])

/-- Concrete instance of claim C1 at the fully populated example record of
the spec, with each presence hypothesis discharged. -/
theorem c1_witness :
    renderDoc janeRecord
      = specRenderedPage (dictGet janeRecord "bookingId" "N/A")
          (dictGet janeRecord "customerName" "N/A")
          (dictGet janeRecord "customerEmail" "N/A")
          (dictGet janeRecord "type" "N/A")
          (dictGet janeRecord "destination" "N/A")
          (dictGet janeRecord "bookingDate" "N/A")
          (dictGet janeRecord "amount" "N/A")
          (dictGet janeRecord "status" "N/A")
    ∧ (∃ u v : List Char, u ++ ("Booking ID: " ++ "BK123").data ++ v = (extractedText (renderDoc janeRecord)).data)
    ∧ (∃ u v : List Char, u ++ ("Customer: " ++ "Jane Doe").data ++ v = (extractedText (renderDoc janeRecord)).data)
    ∧ (∃ u v : List Char, u ++ ("Email: " ++ "jane@example.com").data ++ v = (extractedText (renderDoc janeRecord)).data)
    ∧ (∃ u v : List Char, u ++ ("Type: " ++ "flight").data ++ v = (extractedText (renderDoc janeRecord)).data)
    ∧ (∃ u v : List Char, u ++ ("Destination: " ++ "Paris").data ++ v = (extractedText (renderDoc janeRecord)).data)
    ∧ (∃ u v : List Char, u ++ ("Date: " ++ "2025-01-01").data ++ v = (extractedText (renderDoc janeRecord)).data)
    ∧ (∃ u v : List Char, u ++ ("Amount: $" ++ "250").data ++ v = (extractedText (renderDoc janeRecord)).data)
    ∧ (∃ u v : List Char, u ++ ("Status: " ++ "confirmed").data ++ v = (extractedText (renderDoc janeRecord)).data) := by
  obtain ⟨hs, p1, p2, p3, p4, p5, p6, p7, p8⟩ :=
    c1_rendered_page janeRecord "BK123" "Jane Doe" "jane@example.com"
      "flight" "Paris" "2025-01-01" "250" "confirmed"
  exact ⟨hs, p1 rfl, p2 rfl, p3 rfl, p4 rfl, p5 rfl, p6 rfl, p7 rfl, p8 rfl⟩

/-- Claim C2: a missing recognized key does not drop its row; the row is
still emitted with the placeholder after its exact prefix, and the page
always has its ten cell lines. -/
theorem c2_missing_key (b : List (String × String)) (k pre : String)
    (hmem : (k, pre) ∈ fieldSpecs) (hmiss : lookup b k = none) :
    (pre ++ "N/A") ∈ cellTexts (renderDoc b)
    ∧ (cellTexts (renderDoc b)).length = 10 := by
  refine ⟨?_, by simp [renderDoc, cellTexts]⟩
  fin_cases hmem <;> simp [renderDoc, cellTexts, dictGet, hmiss]

/-- Concrete instance of claim C2 at the empty record and the Booking ID
field. -/
theorem c2_witness :
    ("Booking ID: " ++ "N/A") ∈ cellTexts (renderDoc [])
    ∧ (cellTexts (renderDoc [])).length = 10 :=
  c2_missing_key [] "bookingId" "Booking ID: " (by decide) rfl

/-- Claim C3 as stated is false: `"file.pdf"` is a non-empty output path,
yet the directory-ensuring step errors, because the derived parent
directory is the empty string, which does not exist and cannot be
created. -/
theorem c3_counterexample :
    ("file.pdf" ≠ "")
    ∧ ensure_dir ⟨[], []⟩ "file.pdf" = .error (.fileNotFound "") := by
  exact ⟨by decide, by rfl⟩

/-- Claim C3 amended: for every output path whose derived parent directory
is non-empty, the directory-ensuring step succeeds, leaves the files
untouched, and afterwards the parent directory exists; when the parent
directory already existed the step changes nothing. -/
theorem c3_amended_dir_created (fs : FS) (p : String) (h : dirname p ≠ "") :
    ∃ fs1, ensure_dir fs p = .ok fs1 ∧ fs1.files = fs.files
      ∧ dirname p ∈ fs1.dirs
      ∧ (pathExists fs (dirname p) = true → fs1 = fs) := by
  by_cases hpe : pathExists fs (dirname p) = true
  · refine ⟨fs, ensure_dir_of_exists fs p hpe, rfl, ?_, fun _ => rfl⟩
    simp only [pathExists, if_neg h] at hpe
    simpa using hpe
  · exact ⟨⟨dirname p :: (ancestors (dirname p) ++ fs.dirs), fs.files⟩,
      ensure_dir_of_absent fs p hpe h, rfl, by simp,
      fun hc => absurd hc hpe⟩

/-- Concrete instance of the amended claim C3: an absent parent directory
is created and the call succeeds. -/
theorem c3_witness :
    dirname "out/x.pdf" ≠ ""
    ∧ ∃ fs1, ensure_dir ⟨[], []⟩ "out/x.pdf" = .ok fs1
        ∧ fs1.files = (⟨[], []⟩ : FS).files
        ∧ dirname "out/x.pdf" ∈ fs1.dirs
        ∧ (pathExists ⟨[], []⟩ (dirname "out/x.pdf") = true → fs1 = ⟨[], []⟩) :=
  ⟨by decide, c3_amended_dir_created ⟨[], []⟩ "out/x.pdf" (by decide)⟩

/-- Claim C4: whenever the write succeeds, the call returns exactly the
output path it was given. -/
theorem c4_returns_path (w : Option String) (fs : FS)
    (b : List (String × String)) (p : String) (r : PdfOk)
    (h : (generate_simple_booking_pdf w fs b p).2 = .ok r) : r.ret = p := by
  unfold generate_simple_booking_pdf at h
  cases he : ensure_dir fs p with
  | error e => rw [he] at h; exact Except.noConfusion h
  | ok fs1 =>
    rw [he] at h
    cases w with
    | none =>
      simp only at h
      injection h with h
      subst h
      rfl
    | some e => exact Except.noConfusion h

/-- Concrete instance of claim C4: the empty record written below `out`
returns the path it was given. -/
theorem c4_witness :
    (PdfOk.mk ⟨["out"], [("out/x.pdf", renderDoc [])]⟩ "out/x.pdf").ret
      = "out/x.pdf" :=
  c4_returns_path none ⟨["out"], []⟩ [] "out/x.pdf"
    ⟨⟨["out"], [("out/x.pdf", renderDoc [])]⟩, "out/x.pdf"⟩ (by rfl)

/-- Claim C5 as stated is false: a call whose output path has no directory
component raises even though its write oracle (`none`) would have
succeeded, so the call does not raise only on serialization failures, and
this raise is not logged. -/
theorem c5_counterexample :
    generate_simple_booking_pdf none ⟨[], []⟩ [] "file.pdf"
      = ([], .error (.fileNotFound "")) := by
  rfl

/-- Claim C5 amended: among calls whose directory-ensuring step succeeds, a
write failure with message `e` is logged exactly as the code prints it and
the same error is re-raised, with no retry and no cleanup, and such a call
raises exactly when the write fails: with a succeeding write the call
returns successfully. -/
theorem c5_amended_log_and_reraise (fs fs1 : FS)
    (b : List (String × String)) (p e : String)
    (h : ensure_dir fs p = .ok fs1) :
    generate_simple_booking_pdf (some e) fs b p
      = (["Error generating PDF: " ++ e], .error (.writeErr e))
    ∧ (generate_simple_booking_pdf none fs b p).2
      = .ok ⟨⟨fs1.dirs, setFile fs1.files p (renderDoc b)⟩, p⟩ := by
  unfold generate_simple_booking_pdf
  rw [h]
  exact ⟨rfl, rfl⟩

/-- Concrete instance of the amended claim C5: a failing write below an
existing directory is logged and re-raised, and a succeeding one is not. -/
theorem c5_witness :
    generate_simple_booking_pdf (some "disk full") ⟨["out"], []⟩ [] "out/x.pdf"
      = (["Error generating PDF: " ++ "disk full"], .error (.writeErr "disk full"))
    ∧ (generate_simple_booking_pdf none ⟨["out"], []⟩ [] "out/x.pdf").2
      = .ok ⟨⟨(⟨["out"], []⟩ : FS).dirs,
              setFile (⟨["out"], []⟩ : FS).files "out/x.pdf" (renderDoc [])⟩,
             "out/x.pdf"⟩ :=
  c5_amended_log_and_reraise ⟨["out"], []⟩ ⟨["out"], []⟩ [] "out/x.pdf"
    "disk full" (by rfl)

/-- Claim C7: two successive calls with the same output path both succeed
(here: whenever the path has a directory component) and the second call's
rendered record is what the path holds afterwards. -/
theorem c7_overwrite (fs : FS) (b1 b2 : List (String × String)) (p : String)
    (h : dirname p ≠ "") :
    ∃ r1 r2 : PdfOk,
      (generate_simple_booking_pdf none fs b1 p).2 = .ok r1
      ∧ (generate_simple_booking_pdf none r1.fs b2 p).2 = .ok r2
      ∧ lookupFile r2.fs.files p = some (renderDoc b2) := by
  obtain ⟨fs1, he1, -, -⟩ := ensure_dir_ok_of_ne fs p h
  obtain ⟨fs2, he2, -, -⟩ :=
    ensure_dir_ok_of_ne ⟨fs1.dirs, setFile fs1.files p (renderDoc b1)⟩ p h
  refine ⟨⟨⟨fs1.dirs, setFile fs1.files p (renderDoc b1)⟩, p⟩,
          ⟨⟨fs2.dirs, setFile fs2.files p (renderDoc b2)⟩, p⟩, ?_, ?_, ?_⟩
  · unfold generate_simple_booking_pdf
    rw [he1]
  · unfold generate_simple_booking_pdf
    rw [he2]
  · exact lookupFile_setFile_same fs2.files p (renderDoc b2)

/-- Concrete instance of claim C7: writing two different records to the
same path leaves the second one there. -/
theorem c7_witness :
    ∃ r1 r2 : PdfOk,
      (generate_simple_booking_pdf none ⟨[], []⟩ [("status", "pending")] "out/x.pdf").2 = .ok r1
      ∧ (generate_simple_booking_pdf none r1.fs [("status", "confirmed")] "out/x.pdf").2 = .ok r2
      ∧ lookupFile r2.fs.files "out/x.pdf" = some (renderDoc [("status", "confirmed")]) :=
  c7_overwrite ⟨[], []⟩ [("status", "pending")] [("status", "confirmed")]
    "out/x.pdf" (by decide)

/-- Claim C8: a successful call only creates the parent directory chain of
the output path and the one output file; every other path of the
filesystem is untouched, and the input record, being a read-only argument
of a pure embedding, is unchanged by construction. -/
theorem c8_frame (w : Option String) (fs : FS) (b : List (String × String))
    (p q d : String) (r : PdfOk)
    (h : (generate_simple_booking_pdf w fs b p).2 = .ok r) :
    (q ≠ p → lookupFile r.fs.files q = lookupFile fs.files q)
    ∧ (d ∈ fs.dirs → d ∈ r.fs.dirs)
    ∧ (d ∈ r.fs.dirs → d ∈ fs.dirs ∨ d = dirname p ∨ d ∈ ancestors (dirname p))
    ∧ lookupFile r.fs.files p = some (renderDoc b) := by
  unfold generate_simple_booking_pdf at h
  cases he : ensure_dir fs p with
  | error e => rw [he] at h; exact Except.noConfusion h
  | ok fs1 =>
    rw [he] at h
    cases w with
    | some e => exact Except.noConfusion h
    | none =>
      simp only at h
      injection h with h
      subst h
      obtain ⟨hfiles, hdirs⟩ := ensure_dir_ok_spec fs p fs1 he
      refine ⟨?_, ?_, ?_, ?_⟩
      · intro hq
        rw [lookupFile_setFile_ne fs1.files p q (renderDoc b) hq, hfiles]
      · intro hd
        rcases hdirs with rfl | hd1
        · exact hd
        · rw [hd1]
          exact List.mem_cons_of_mem _ (List.mem_append_right _ hd)
      · intro hd
        rcases hdirs with rfl | hd1
        · exact Or.inl hd
        · rw [hd1] at hd
          rcases List.mem_cons.mp hd with rfl | hd2
          · exact Or.inr (Or.inl rfl)
          · rcases List.mem_append.mp hd2 with hd3 | hd3
            · exact Or.inr (Or.inr hd3)
            · exact Or.inl hd3
      · exact lookupFile_setFile_same fs1.files p (renderDoc b)

/-- Concrete instance of claim C8: a call writing one file below the
existing directory `out` leaves the rest of the filesystem alone. -/
theorem c8_witness :
    ("other/y.pdf" ≠ "out/x.pdf" →
      lookupFile (PdfOk.mk ⟨["out"], [("out/x.pdf", renderDoc [])]⟩ "out/x.pdf").fs.files "other/y.pdf"
        = lookupFile (⟨["out"], []⟩ : FS).files "other/y.pdf")
    ∧ ("out" ∈ (⟨["out"], []⟩ : FS).dirs →
        "out" ∈ (PdfOk.mk ⟨["out"], [("out/x.pdf", renderDoc [])]⟩ "out/x.pdf").fs.dirs)
    ∧ ("out" ∈ (PdfOk.mk ⟨["out"], [("out/x.pdf", renderDoc [])]⟩ "out/x.pdf").fs.dirs →
        "out" ∈ (⟨["out"], []⟩ : FS).dirs ∨ "out" = dirname "out/x.pdf"
        ∨ "out" ∈ ancestors (dirname "out/x.pdf"))
    ∧ lookupFile (PdfOk.mk ⟨["out"], [("out/x.pdf", renderDoc [])]⟩ "out/x.pdf").fs.files "out/x.pdf"
        = some (renderDoc []) :=
  c8_frame none ⟨["out"], []⟩ [] "out/x.pdf" "other/y.pdf" "out"
    ⟨⟨["out"], [("out/x.pdf", renderDoc [])]⟩, "out/x.pdf"⟩ (by rfl)

/-- Claim C9: any output path whose derived parent directory is the empty
string — in particular a bare filename — makes the call raise in the
directory-ensuring step, before anything is rendered, logged or written,
because the empty-string directory does not exist and creating it fails. -/
theorem c9_bare_filename_raises (w : Option String) (fs : FS)
    (b : List (String × String)) (p : String) (h : dirname p = "") :
    generate_simple_booking_pdf w fs b p = ([], .error (.fileNotFound "")) := by
  have he : ensure_dir fs p = .error (.fileNotFound "") := by
    simp [ensure_dir, h, pathExists, makedirs]
  unfold generate_simple_booking_pdf
  rw [he]

/-- Concrete instance of claim C9: the non-empty bare filename
`"file.pdf"` raises before any write is attempted, whatever the write
oracle would have done. -/
theorem c9_witness :
    generate_simple_booking_pdf (some "never reached") ⟨["out"], []⟩
        janeRecord "file.pdf"
      = ([], .error (.fileNotFound "")) :=
  c9_bare_filename_raises (some "never reached") ⟨["out"], []⟩ janeRecord
    "file.pdf" (by decide)

/-- Claim C10: two records that agree on the eight recognized keys render
to the same page; keys outside the recognized eight have no effect on the
output. -/
theorem c10_unrecognized_keys_no_effect (b1 b2 : List (String × String))
    (h : ∀ kp ∈ fieldSpecs, lookup b1 kp.1 = lookup b2 kp.1) :
    renderDoc b1 = renderDoc b2 := by
  have h1 := h ("bookingId", "Booking ID: ") (by simp [fieldSpecs])
  have h2 := h ("customerName", "Customer: ") (by simp [fieldSpecs])
  have h3 := h ("customerEmail", "Email: ") (by simp [fieldSpecs])
  have h4 := h ("type", "Type: ") (by simp [fieldSpecs])
  have h5 := h ("destination", "Destination: ") (by simp [fieldSpecs])
  have h6 := h ("bookingDate", "Date: ") (by simp [fieldSpecs])
  have h7 := h ("amount", "Amount: $") (by simp [fieldSpecs])
  have h8 := h ("status", "Status: ") (by simp [fieldSpecs])
  simp only at h1 h2 h3 h4 h5 h6 h7 h8
  simp [renderDoc, dictGet, h1, h2, h3, h4, h5, h6, h7, h8]

/-- Concrete instance of claim C10: an unrecognized key added to a record
does not change the rendered page. -/
theorem c10_witness :
    renderDoc [("bookingId", "BK1"), ("unrecognizedKey", "zzz")]
      = renderDoc [("bookingId", "BK1")] :=
  c10_unrecognized_keys_no_effect
    [("bookingId", "BK1"), ("unrecognizedKey", "zzz")]
    [("bookingId", "BK1")] (by decide)
